import Mathlib

/-!
Verification of the bdk-ffi core: extended-key derivation bookkeeping
(src/bdk-ffi/src/lib.rs), the immutable transaction builder
(src/bdk-ffi/src/wallet.rs) and descriptor construction
(src/bdk-ffi/src/descriptor.rs).

The FFI layer dispatches over key variants and keeps origin, trailing
derivation path and wildcard bookkeeping; the underlying BIP32
cryptography, key-string parsing and the bdk wallet session live in the
external bdk and rust-bitcoin crates and are modelled from the spec where
a claim needs them.  Every such modelled definition carries a doc comment
saying so.
-/

namespace BdkFfi

/-- A single BIP32 derivation step: an unhardened or hardened child index
(rust-bitcoin ChildNumber). -/
inductive ChildNumber
  | normal (index : Nat)
  | hardened (index : Nat)
deriving DecidableEq, Repr

/-- Whether a derivation step is hardened. -/
def ChildNumber.isHardened : ChildNumber → Bool
  | .normal _ => false
  | .hardened _ => true

/-- An ordered sequence of child-index steps (rust-bitcoin DerivationPath).
Path extension is list concatenation. -/
abbrev DerivationPath := List ChildNumber

/-- Injective code of a derivation step into a natural number, used to model
key material identities. -/
def ChildNumber.code : ChildNumber → Nat
  | .normal i => 2 * i
  | .hardened i => 2 * i + 1

/-- Injective code of a path into a natural number. -/
def pathCode : List ChildNumber → Nat
  | [] => 0
  | c :: rest => Nat.pair c.code (pathCode rest) + 1

/-- Modelled from the spec: a BIP32 extended private key
(bdk::bitcoin::util::bip32::ExtendedPrivKey, external to this repository).
The key material is modelled freely as the master seed identity together
with the list of child steps already applied, so that child derivation is
step concatenation and distinct derivations yield distinct keys. -/
structure XPrv where
  seed : Nat
  childSteps : List ChildNumber
deriving DecidableEq, Repr

/-- Modelled from the spec: a BIP32 extended public key
(bdk::bitcoin::util::bip32::ExtendedPubKey, external to this repository),
the public counterpart of the free XPrv model. -/
structure XPub where
  seed : Nat
  childSteps : List ChildNumber
deriving DecidableEq, Repr

/-- Modelled from the spec: private child derivation (derive_priv); applies
each step of the path to the key, which in the free model appends the steps.
It never fails on a well-formed path. -/
def XPrv.derivePriv (k : XPrv) (path : DerivationPath) : XPrv :=
  ⟨k.seed, k.childSteps ++ path⟩

/-- Modelled from the spec: the deterministic one-way conversion from the
private key to the corresponding public material (neutering). -/
def XPrv.toXPub (k : XPrv) : XPub :=
  ⟨k.seed, k.childSteps⟩

/-- Modelled from the spec: the 4-byte fingerprint of an extended public
key, an identifier of the key material; modelled as an injective code of
the key. -/
def XPub.fingerprint (k : XPub) : Nat :=
  Nat.pair k.seed (pathCode k.childSteps)

/-- Modelled from the spec: the fingerprint of an extended private key is
the fingerprint of its public counterpart. -/
def XPrv.fingerprint (k : XPrv) : Nat :=
  k.toXPub.fingerprint

/-- Modelled from the spec: errors raised by the external bip32 derivation
code; public derivation across a hardened step is invalid. -/
inductive Bip32Error
  | cannotDeriveFromHardenedKey
deriving DecidableEq, Repr

/-- Modelled from the spec: public child derivation (derive_pub); a child
public key is computable without the private scalar only along unhardened
steps, so a path containing a hardened step fails. -/
def XPub.derivePub (k : XPub) (path : DerivationPath) : Except Bip32Error XPub :=
  if List.any path ChildNumber.isHardened then
    .error .cannotDeriveFromHardenedKey
  else
    .ok ⟨k.seed, k.childSteps ++ path⟩

/-- The error type surfaced by the FFI layer (bdk::Error).  The FFI code
produces Generic string errors itself and propagates typed errors of the
external crates. -/
inductive BdkError
  | generic (msg : String)
  | bip32 (e : Bip32Error)
  | descriptorKeyInvalidNetwork
  | invalidRbfSequence
deriving DecidableEq, Repr

/-- Wildcard marker of a descriptor key (bdk::descriptor::Wildcard). -/
inductive Wildcard
  | none
  | unhardened
  | hardened
deriving DecidableEq, Repr

/-- An extended descriptor key: origin, raw key, trailing (un-baked)
derivation path and wildcard marker (bdk DescriptorXKey, generic over the
key type exactly as in the source). -/
structure DescriptorXKey (K : Type) where
  origin : Option (Nat × DerivationPath)
  xkey : K
  derivationPath : DerivationPath
  wildcard : Wildcard
deriving DecidableEq

/-- Modelled from the spec: a non-derivable single private key, e.g.
imported from a WIF encoding (bdk SinglePriv, external). -/
structure SinglePriv where
  key : Nat
deriving DecidableEq, Repr

/-- Modelled from the spec: a non-derivable single public key
(bdk SinglePub, external). -/
structure SinglePub where
  key : Nat
deriving DecidableEq, Repr

/-- The secret descriptor key variant (bdk DescriptorSecretKey):
derivable XPrv or non-derivable Single. -/
inductive DescriptorSecretKey
  | xprv (d : DescriptorXKey XPrv)
  | single (s : SinglePriv)
deriving DecidableEq

/-- The public descriptor key variant (bdk DescriptorPublicKey):
derivable XPub or non-derivable Single. -/
inductive DescriptorPublicKey
  | xpub (d : DescriptorXKey XPub)
  | single (s : SinglePub)
deriving DecidableEq

/-- DescriptorSecretKey::derive (src/bdk-ffi/src/lib.rs lines 430-455):
derives the child private key at the path, bakes the path into the origin
(reusing the existing origin fingerprint, or the fingerprint of the key
itself when there was none), resets the trailing path and keeps the
wildcard; fails on a Single key. -/
def DescriptorSecretKey.derive (self : DescriptorSecretKey) (path : DerivationPath) :
    Except BdkError DescriptorSecretKey :=
  match self with
  | .xprv descriptorXKey =>
      let derivedXprv := descriptorXKey.xkey.derivePriv path
      let keySource :=
        match descriptorXKey.origin with
        | some (fingerprint, originPath) => (fingerprint, originPath ++ path)
        | none => (descriptorXKey.xkey.fingerprint, path)
      .ok (.xprv ⟨some keySource, derivedXprv, ∅, descriptorXKey.wildcard⟩)
  | .single _ => .error (.generic "Cannot derive from a single key")

/-- DescriptorSecretKey::extend (src/bdk-ffi/src/lib.rs lines 457-477):
appends the path to the trailing derivation path, leaving origin, raw key
and wildcard unchanged; fails on a Single key. -/
def DescriptorSecretKey.extend (self : DescriptorSecretKey) (path : DerivationPath) :
    Except BdkError DescriptorSecretKey :=
  match self with
  | .xprv descriptorXKey =>
      let extendedPath := descriptorXKey.derivationPath ++ path
      .ok (.xprv ⟨descriptorXKey.origin, descriptorXKey.xkey, extendedPath,
        descriptorXKey.wildcard⟩)
  | .single _ => .error (.generic "Cannot extend from a single key")

/-- DescriptorSecretKey::as_public (src/bdk-ffi/src/lib.rs lines 479-490)
delegates to to_public of the external bdk crate.  Modelled from the spec:
a deterministic one-way conversion that computes the corresponding public
material and never fails for a well-formed key, keeping origin, trailing
path and wildcard. -/
def DescriptorSecretKey.asPublic : DescriptorSecretKey → DescriptorPublicKey
  | .xprv d => .xpub ⟨d.origin, d.xkey.toXPub, d.derivationPath, d.wildcard⟩
  | .single s => .single ⟨s.key⟩

/-- DescriptorSecretKey::secret_bytes (src/bdk-ffi/src/lib.rs lines
492-505): returns the raw private scalar for the XPrv variant; on the
Single variant the source executes an unconditional abort, modelled as
none. -/
def DescriptorSecretKey.secretBytes : DescriptorSecretKey → Option Nat
  | .xprv d => some (Nat.pair d.xkey.seed (pathCode d.xkey.childSteps))
  | .single _ => none

/-- Modelled from the spec: the encoded secret-key strings accepted by
from_encoded_string, either a single-key (WIF style) encoding or an
extended-key encoding; the structure of the encoding stands in for the
external string parser. -/
inductive SecretKeyEncoding
  | wif (key : Nat)
  | xprvEncoding (d : DescriptorXKey XPrv)

/-- DescriptorSecretKey::from_string (src/bdk-ffi/src/lib.rs lines
422-428): parses an encoded secret key; a WIF encoding yields a
Single-variant key, an extended-key encoding yields an XPrv-variant key. -/
def DescriptorSecretKey.fromString : SecretKeyEncoding → Except BdkError DescriptorSecretKey
  | .wif k => .ok (.single ⟨k⟩)
  | .xprvEncoding d => .ok (.xprv d)

/-- DescriptorPublicKey::derive (src/bdk-ffi/src/lib.rs lines 526-552):
derives the child public key at the path (propagating the hardened-step
failure of the external derive_pub), bakes the path into the origin,
resets the trailing path and keeps the wildcard; fails on a Single key. -/
def DescriptorPublicKey.derive (self : DescriptorPublicKey) (path : DerivationPath) :
    Except BdkError DescriptorPublicKey :=
  match self with
  | .xpub descriptorXKey =>
      match descriptorXKey.xkey.derivePub path with
      | .error e => .error (.bip32 e)
      | .ok derivedXpub =>
          let keySource :=
            match descriptorXKey.origin with
            | some (fingerprint, originPath) => (fingerprint, originPath ++ path)
            | none => (descriptorXKey.xkey.fingerprint, path)
          .ok (.xpub ⟨some keySource, derivedXpub, ∅, descriptorXKey.wildcard⟩)
  | .single _ => .error (.generic "Cannot derive from a single key")

/-- DescriptorPublicKey::extend (src/bdk-ffi/src/lib.rs lines 554-574):
appends the path to the trailing derivation path, leaving origin, raw key
and wildcard unchanged; fails on a Single key. -/
def DescriptorPublicKey.extend (self : DescriptorPublicKey) (path : DerivationPath) :
    Except BdkError DescriptorPublicKey :=
  match self with
  | .xpub descriptorXKey =>
      let extendedPath := descriptorXKey.derivationPath ++ path
      .ok (.xpub ⟨descriptorXKey.origin, descriptorXKey.xkey, extendedPath,
        descriptorXKey.wildcard⟩)
  | .single _ => .error (.generic "Cannot extend from a single key")

/-! ## Transaction builder (src/bdk-ffi/src/wallet.rs) -/

/-- A 32-bit float value stored by the builder (the fee rate in
sat-per-vbyte); the FFI layer only stores and forwards it, so it is
modelled by its bit pattern. -/
structure F32 where
  bits : Nat
deriving DecidableEq, Repr

/-- A Bitcoin script, carried as raw output-script bytes
(src/bdk-ffi/src/lib.rs lines 326-337). -/
structure Script where
  script : List Nat
deriving DecidableEq, Repr

/-- A reference to a transaction output (src/bdk-ffi/src/lib.rs lines
197-204). -/
structure OutPoint where
  txid : String
  vout : Nat
deriving DecidableEq, Repr

/-- An output script and an amount of satoshis (src/bdk-ffi/src/lib.rs
lines 39-43). -/
structure ScriptAmount where
  script : Script
  amount : Nat
deriving DecidableEq, Repr

/-- Change-spend policy of the builder (bdk ChangeSpendPolicy). -/
inductive ChangeSpendPolicy
  | changeAllowed
  | onlyChange
  | changeForbidden
deriving DecidableEq, Repr

/-- RBF signaling choice (src/bdk-ffi/src/lib.rs lines 339-343): default
nSequence or an explicit value. -/
inductive RbfValue
  | default
  | value (nsequence : Nat)
deriving DecidableEq, Repr

/-- The accumulated transaction-builder state (src/bdk-ffi/src/wallet.rs
lines 127-140). -/
structure TxBuilder where
  recipients : List (Script × Nat)
  utxos : List OutPoint
  unspendable : Finset OutPoint
  changePolicy : ChangeSpendPolicy
  manuallySelectedOnly : Bool
  feeRate : Option F32
  feeAbsolute : Option Nat
  drainWallet : Bool
  drainTo : Option Script
  rbf : Option RbfValue
  data : List Nat
deriving DecidableEq

/-- TxBuilder::new (src/bdk-ffi/src/wallet.rs lines 143-157). -/
def TxBuilder.new : TxBuilder :=
  ⟨[], [], ∅, .changeAllowed, false, none, none, false, none, none, []⟩

/-- TxBuilder::add_recipient (lines 160-167): appends one
(script, amount) pair to the recipient list of a copy of the builder. -/
def TxBuilder.addRecipient (self : TxBuilder) (script : Script) (amount : Nat) : TxBuilder :=
  { self with recipients := self.recipients ++ [(script, amount)] }

/-- TxBuilder::set_recipients (lines 169-178): replaces the recipient
list wholesale. -/
def TxBuilder.setRecipients (self : TxBuilder) (recipients : List ScriptAmount) : TxBuilder :=
  { self with recipients := recipients.map (fun sa => (sa.script, sa.amount)) }

/-- TxBuilder::add_unspendable (lines 182-189): inserts one outpoint into
the unspendable set. -/
def TxBuilder.addUnspendable (self : TxBuilder) (outpoint : OutPoint) : TxBuilder :=
  { self with unspendable := insert outpoint self.unspendable }

/-- TxBuilder::add_utxos (lines 200-207): appends outpoints to the list
of UTXOs that must be spent (no dedup). -/
def TxBuilder.addUtxos (self : TxBuilder) (outpoints : List OutPoint) : TxBuilder :=
  { self with utxos := self.utxos ++ outpoints }

/-- TxBuilder::add_utxo (lines 193-195): delegates to add_utxos with a
one-element list. -/
def TxBuilder.addUtxo (self : TxBuilder) (outpoint : OutPoint) : TxBuilder :=
  self.addUtxos [outpoint]

/-- TxBuilder::do_not_spend_change (lines 210-215). -/
def TxBuilder.doNotSpendChange (self : TxBuilder) : TxBuilder :=
  { self with changePolicy := .changeForbidden }

/-- TxBuilder::manually_selected_only (lines 219-224); named with a set
prefix here because the Rust method shares its name with the field. -/
def TxBuilder.setManuallySelectedOnly (self : TxBuilder) : TxBuilder :=
  { self with manuallySelectedOnly := true }

/-- TxBuilder::only_spend_change (lines 227-232). -/
def TxBuilder.onlySpendChange (self : TxBuilder) : TxBuilder :=
  { self with changePolicy := .onlyChange }

/-- TxBuilder::unspendable (lines 236-241): replaces the unspendable set
with the set of the given outpoints; named with a set prefix here because
the Rust method shares its name with the field. -/
def TxBuilder.setUnspendable (self : TxBuilder) (unspendable : List OutPoint) : TxBuilder :=
  { self with unspendable := unspendable.toFinset }

/-- TxBuilder::fee_rate (lines 244-249). -/
def TxBuilder.setFeeRate (self : TxBuilder) (satPerVb : F32) : TxBuilder :=
  { self with feeRate := some satPerVb }

/-- TxBuilder::fee_absolute (lines 252-257). -/
def TxBuilder.setFeeAbsolute (self : TxBuilder) (feeAmount : Nat) : TxBuilder :=
  { self with feeAbsolute := some feeAmount }

/-- TxBuilder::drain_wallet (lines 260-265). -/
def TxBuilder.setDrainWallet (self : TxBuilder) : TxBuilder :=
  { self with drainWallet := true }

/-- TxBuilder::drain_to (lines 275-280). -/
def TxBuilder.setDrainTo (self : TxBuilder) (script : Script) : TxBuilder :=
  { self with drainTo := some script }

/-- TxBuilder::enable_rbf (lines 283-288). -/
def TxBuilder.enableRbf (self : TxBuilder) : TxBuilder :=
  { self with rbf := some .default }

/-- TxBuilder::enable_rbf_with_sequence (lines 293-298): stores the given
nSequence without validating it. -/
def TxBuilder.enableRbfWithSequence (self : TxBuilder) (nsequence : Nat) : TxBuilder :=
  { self with rbf := some (.value nsequence) }

/-- TxBuilder::add_data (lines 301-306): replaces the embedded data
payload. -/
def TxBuilder.addData (self : TxBuilder) (data : List Nat) : TxBuilder :=
  { self with data := data }

/-- One call made by TxBuilder::finish on the coin-selection session
object of the external bdk wallet. -/
inductive TxOp
  | addRecipient (script : Script) (amount : Nat)
  | changePolicy (p : ChangeSpendPolicy)
  | addUtxos (utxos : List OutPoint)
  | unspendableSet (utxos : Finset OutPoint)
  | manuallySelectedOnly
  | feeRate (satPerVb : F32)
  | feeAbsolute (feeAmount : Nat)
  | drainWallet
  | drainTo (script : Script)
  | enableRbf
  | enableRbfWithSequence (nsequence : Nat)
  | addData (data : List Nat)
deriving DecidableEq

/-- TxBuilder::finish (src/bdk-ffi/src/wallet.rs lines 309-363), embedded
as the ordered trace of the calls it makes on the coin-selection session:
each statement of the source contributes its operation in source order,
guarded exactly as in the source. -/
def TxBuilder.finishOps (self : TxBuilder) : List TxOp :=
  let ops := self.recipients.map (fun r => TxOp.addRecipient r.1 r.2)
  let ops := ops ++ [TxOp.changePolicy self.changePolicy]
  let ops := if self.utxos.isEmpty then ops else ops ++ [TxOp.addUtxos self.utxos]
  let ops := if self.unspendable = ∅ then ops else ops ++ [TxOp.unspendableSet self.unspendable]
  let ops := if self.manuallySelectedOnly then ops ++ [TxOp.manuallySelectedOnly] else ops
  let ops := match self.feeRate with
    | some satPerVb => ops ++ [TxOp.feeRate satPerVb]
    | none => ops
  let ops := match self.feeAbsolute with
    | some feeAmount => ops ++ [TxOp.feeAbsolute feeAmount]
    | none => ops
  let ops := if self.drainWallet then ops ++ [TxOp.drainWallet] else ops
  let ops := match self.drainTo with
    | some script => ops ++ [TxOp.drainTo script]
    | none => ops
  let ops := match self.rbf with
    | some .default => ops ++ [TxOp.enableRbf]
    | some (.value nsequence) => ops ++ [TxOp.enableRbfWithSequence nsequence]
    | none => ops
  let ops := if self.data.isEmpty then ops else ops ++ [TxOp.addData self.data]
  ops

/-- Modelled from the spec: the fee policy slot of the coin-selection
session of the external bdk wallet; a single slot shared by the fee-rate
and the absolute-fee call, so the later call overwrites the earlier. -/
inductive FeePolicy
  | feeRate (satPerVb : F32)
  | feeAmount (feeAmount : Nat)
deriving DecidableEq

/-- Modelled from the spec: the constraint state of the coin-selection
session object of the external bdk wallet that the calls of finish
populate. -/
structure TxParams where
  recipients : List (Script × Nat)
  changePolicy : ChangeSpendPolicy
  utxos : List OutPoint
  unspendable : Finset OutPoint
  manuallySelectedOnly : Bool
  feePolicy : Option FeePolicy
  drainWallet : Bool
  drainTo : Option Script
  rbf : Option RbfValue
  data : List Nat
deriving DecidableEq

/-- Modelled from the spec: the freshly constructed coin-selection
session, before finish makes any call on it. -/
def TxParams.initial : TxParams :=
  ⟨[], .changeAllowed, [], ∅, false, none, false, none, none, []⟩

/-- Modelled from the spec: the effect of one session call on the session
state of the external bdk wallet. -/
def TxParams.applyOp (s : TxParams) : TxOp → TxParams
  | .addRecipient script amount => { s with recipients := s.recipients ++ [(script, amount)] }
  | .changePolicy p => { s with changePolicy := p }
  | .addUtxos utxos => { s with utxos := s.utxos ++ utxos }
  | .unspendableSet utxos => { s with unspendable := utxos }
  | .manuallySelectedOnly => { s with manuallySelectedOnly := true }
  | .feeRate satPerVb => { s with feePolicy := some (.feeRate satPerVb) }
  | .feeAbsolute feeAmount => { s with feePolicy := some (.feeAmount feeAmount) }
  | .drainWallet => { s with drainWallet := true }
  | .drainTo script => { s with drainTo := some script }
  | .enableRbf => { s with rbf := some .default }
  | .enableRbfWithSequence nsequence => { s with rbf := some (.value nsequence) }
  | .addData data => { s with data := data }

/-- Applying a list of session calls from left to right. -/
def TxParams.applyOps (s : TxParams) (ops : List TxOp) : TxParams :=
  ops.foldl TxParams.applyOp s

/-- Modelled from the spec: the RBF validation the external bdk wallet
performs at finish time; an explicit nSequence exceeding the maximum RBF
signaling value 0xFFFFFFFD is rejected there. -/
def TxParams.validateRbf (s : TxParams) : Except BdkError Unit :=
  match s.rbf with
  | some (.value nsequence) =>
      if 0xFFFFFFFD < nsequence then .error .invalidRbfSequence else .ok ()
  | _ => .ok ()

/-- TxBuilder::finish followed by the finish-time validation of the
external bdk wallet: the accumulated state is compiled into session calls,
applied in order, and the resulting request is validated (the RBF check is
the part of that validation modelled here). -/
def TxBuilder.finishCheck (self : TxBuilder) : Except BdkError TxParams :=
  let s := TxParams.applyOps TxParams.initial self.finishOps
  match s.validateRbf with
  | .error e => .error e
  | .ok _ => .ok s

/-! ## Balance (src/bdk-ffi/src/lib.rs lines 215-241) -/

/-- Modelled from the spec: the balance of the external bdk wallet, the
four satoshi counts it tracks per category. -/
structure BdkBalance where
  immature : Nat
  trustedPending : Nat
  untrustedPending : Nat
  confirmed : Nat
deriving DecidableEq, Repr

/-- Modelled from the spec: get_spendable of the external bdk balance, the
sum of the trusted pending and confirmed coins. -/
def BdkBalance.getSpendable (b : BdkBalance) : Nat :=
  b.confirmed + b.trustedPending

/-- Modelled from the spec: get_total of the external bdk balance, the
whole balance visible to the wallet. -/
def BdkBalance.getTotal (b : BdkBalance) : Nat :=
  b.getSpendable + b.untrustedPending + b.immature

/-- The FFI balance record (src/bdk-ffi/src/lib.rs lines 215-228). -/
structure Balance where
  immature : Nat
  trustedPending : Nat
  untrustedPending : Nat
  confirmed : Nat
  spendable : Nat
  total : Nat
deriving DecidableEq, Repr

/-- The From conversion of the bdk balance into the FFI balance
(src/bdk-ffi/src/lib.rs lines 230-241); Wallet::get_balance
(src/bdk-ffi/src/wallet.rs lines 94-96) returns exactly this conversion of
the balance of the underlying bdk wallet. -/
def Balance.fromBdkBalance (b : BdkBalance) : Balance :=
  ⟨b.immature, b.trustedPending, b.untrustedPending, b.confirmed,
    b.getSpendable, b.getTotal⟩

/-! ## Descriptor and wallet construction
(src/bdk-ffi/src/descriptor.rs, src/bdk-ffi/src/wallet.rs lines 33-55) -/

/-- The Bitcoin network a key or wallet is declared for. -/
inductive Network
  | bitcoin
  | testnet
  | signet
  | regtest
deriving DecidableEq, Repr

/-- Modelled from the spec: the network class encoded in the version bytes
of an encoded extended key; mainnet keys and test-network keys carry
distinct version bytes. -/
inductive KeyNetworkByte
  | mainnet
  | testnet
deriving DecidableEq, Repr

/-- Modelled from the spec: the version-byte class of each declared
network. -/
def Network.keyByte : Network → KeyNetworkByte
  | .bitcoin => .mainnet
  | _ => .testnet

/-- Modelled from the spec: a textual descriptor expression, abstracted to
the datum the network check reads, namely the version-byte class of the
embedded encoded extended key, when the expression embeds one. -/
structure DescriptorExpression where
  embeddedKeyByte : Option KeyNetworkByte
deriving DecidableEq, Repr

/-- A parsed wallet descriptor (src/bdk-ffi/src/descriptor.rs lines
17-21), abstracted to the datum later constructions read back; rendering
the descriptor with as_string_private keeps the embedded key and hence its
version-byte class. -/
structure Descriptor where
  keyByte : Option KeyNetworkByte
deriving DecidableEq, Repr

/-- Modelled from the spec: into_wallet_descriptor of the external bdk
crate; parsing fails with the InvalidNetwork key error when the
version-byte class of an embedded extended key does not match the declared
network, and succeeds otherwise. -/
def intoWalletDescriptor (e : DescriptorExpression) (network : Network) :
    Except BdkError Descriptor :=
  match e.embeddedKeyByte with
  | some b => if b = network.keyByte then .ok ⟨some b⟩ else .error .descriptorKeyInvalidNetwork
  | none => .ok ⟨none⟩

/-- Descriptor::new (src/bdk-ffi/src/descriptor.rs lines 24-31): parses
the expression against the declared network via into_wallet_descriptor. -/
def Descriptor.new (descriptor : DescriptorExpression) (network : Network) :
    Except BdkError Descriptor :=
  intoWalletDescriptor descriptor network

/-- Descriptor::as_string_private (src/bdk-ffi/src/descriptor.rs lines
186-190), abstracted to the datum the wallet construction reads: the
rendered expression embeds the same keys, hence the same version-byte
class. -/
def Descriptor.asStringPrivate (d : Descriptor) : DescriptorExpression :=
  ⟨d.keyByte⟩

/-- A constructed wallet (src/bdk-ffi/src/wallet.rs lines 22-25),
abstracted to its declared network and descriptor. -/
structure Wallet where
  network : Network
  descriptor : Descriptor
deriving DecidableEq, Repr

/-- Wallet::new (src/bdk-ffi/src/wallet.rs lines 33-55): renders the
descriptor with as_string_private and hands it to the external bdk wallet
constructor, which re-parses it against the declared network (modelled by
into_wallet_descriptor, as the spec specifies the same network check
there). -/
def Wallet.new (descriptor : Descriptor) (network : Network) : Except BdkError Wallet :=
  match intoWalletDescriptor descriptor.asStringPrivate network with
  | .error e => .error e
  | .ok d => .ok ⟨network, d⟩

/-- Keychain role of a descriptor (bdk KeychainKind). -/
inductive KeychainKind
  | external
  | internal
deriving DecidableEq, Repr

/-- Whether a character is a hexadecimal digit. -/
def isHexDigit (c : Char) : Bool :=
  (48 ≤ c.toNat && c.toNat ≤ 57) || (97 ≤ c.toNat && c.toNat ≤ 102)
    || (65 ≤ c.toNat && c.toNat ≤ 70)

/-- Modelled from the spec: Fingerprint::from_str of the external
rust-bitcoin crate; a fingerprint string parses exactly when it consists
of 8 hexadecimal digits (4 bytes in hex). -/
def fingerprintFromString (s : String) : Option Nat :=
  if s.length = 8 && s.toList.all isHexDigit then
    some (s.toList.foldl (fun n c => 16 * n + c.toNat) 0)
  else
    none

/-- Modelled from the spec: building a descriptor from one of the three
standard secret-key templates of the external bdk crate at the given
network; the built expression embeds the key encoded for that network. -/
def templateBuild (_purpose : Nat) (_xkey : XPrv) (_keychainKind : KeychainKind)
    (network : Network) : Descriptor :=
  ⟨some network.keyByte⟩

/-- Modelled from the spec: building a descriptor from one of the three
standard public-key templates of the external bdk crate, with the origin
fingerprint supplied out-of-band. -/
def templateBuildPublic (_purpose : Nat) (_xkey : XPub) (_fingerprint : Nat)
    (_keychainKind : KeychainKind) (network : Network) : Descriptor :=
  ⟨some network.keyByte⟩

/-- Descriptor::new_bip44 (src/bdk-ffi/src/descriptor.rs lines 33-54):
dispatches on the key variant; the XPrv variant builds the template, the
Single variant hits an unconditional abort, modelled as none.  The
function returns the descriptor directly, never a typed error. -/
def Descriptor.newBip44 (secretKey : DescriptorSecretKey) (keychainKind : KeychainKind)
    (network : Network) : Option Descriptor :=
  match secretKey with
  | .xprv d => some (templateBuild 44 d.xkey keychainKind network)
  | .single _ => none

/-- Descriptor::new_bip49 (src/bdk-ffi/src/descriptor.rs lines 84-105). -/
def Descriptor.newBip49 (secretKey : DescriptorSecretKey) (keychainKind : KeychainKind)
    (network : Network) : Option Descriptor :=
  match secretKey with
  | .xprv d => some (templateBuild 49 d.xkey keychainKind network)
  | .single _ => none

/-- Descriptor::new_bip84 (src/bdk-ffi/src/descriptor.rs lines 135-156). -/
def Descriptor.newBip84 (secretKey : DescriptorSecretKey) (keychainKind : KeychainKind)
    (network : Network) : Option Descriptor :=
  match secretKey with
  | .xprv d => some (templateBuild 84 d.xkey keychainKind network)
  | .single _ => none

/-- Descriptor::new_bip44_public (src/bdk-ffi/src/descriptor.rs lines
56-82): first unwraps the parsed fingerprint string (an invalid string
aborts, modelled as none), then dispatches on the key variant; the Single
variant hits an unconditional abort.  The function returns the descriptor
directly, never a typed error. -/
def Descriptor.newBip44Public (publicKey : DescriptorPublicKey) (fingerprint : String)
    (keychainKind : KeychainKind) (network : Network) : Option Descriptor :=
  match fingerprintFromString fingerprint with
  | none => none
  | some f =>
      match publicKey with
      | .xpub d => some (templateBuildPublic 44 d.xkey f keychainKind network)
      | .single _ => none

/-- Descriptor::new_bip49_public (src/bdk-ffi/src/descriptor.rs lines
107-133). -/
def Descriptor.newBip49Public (publicKey : DescriptorPublicKey) (fingerprint : String)
    (keychainKind : KeychainKind) (network : Network) : Option Descriptor :=
  match fingerprintFromString fingerprint with
  | none => none
  | some f =>
      match publicKey with
      | .xpub d => some (templateBuildPublic 49 d.xkey f keychainKind network)
      | .single _ => none

/-- Descriptor::new_bip84_public (src/bdk-ffi/src/descriptor.rs lines
158-184). -/
def Descriptor.newBip84Public (publicKey : DescriptorPublicKey) (fingerprint : String)
    (keychainKind : KeychainKind) (network : Network) : Option Descriptor :=
  match fingerprintFromString fingerprint with
  | none => none
  | some f =>
      match publicKey with
      | .xpub d => some (templateBuildPublic 84 d.xkey f keychainKind network)
      | .single _ => none

/-- Whether a secret descriptor key is the Single (non-derivable)
variant. -/
def DescriptorSecretKey.isSingle : DescriptorSecretKey → Bool
  | .xprv _ => false
  | .single _ => true

/-- Whether a public descriptor key is the Single (non-derivable)
variant. -/
def DescriptorPublicKey.isSingle : DescriptorPublicKey → Bool
  | .xpub _ => false
  | .single _ => true

/-- Whether a session call writes the fee policy slot. -/
def TxOp.touchesFee : TxOp → Bool
  | .feeRate _ => true
  | .feeAbsolute _ => true
  | _ => false

/-! ## Theorems -/

/-- Appending one element under a condition, pulled out of the branch. -/
theorem ite_append_singleton {α : Type} (c : Prop) [Decidable c] (l : List α) (x : α) :
    (if c then l ++ [x] else l) = l ++ (if c then [x] else []) := by
  split <;> simp

/-- Appending one element in the else branch, pulled out of the branch. -/
theorem ite_append_singleton_else {α : Type} (c : Prop) [Decidable c] (l : List α) (x : α) :
    (if c then l else l ++ [x]) = l ++ (if c then [] else [x]) := by
  split <;> simp

/-- Appending one element produced from an optional value, pulled out of
the match. -/
theorem option_match_append {α β : Type} (o : Option β) (l : List α) (f : β → α) :
    (match o with | some y => l ++ [f y] | none => l) = l ++ (o.map f).toList := by
  cases o <;> simp

/-- Appending the RBF call selected by the stored RBF choice, pulled out
of the match. -/
theorem rbf_match_append (o : Option RbfValue) (l : List TxOp) :
    (match o with
      | some .default => l ++ [TxOp.enableRbf]
      | some (.value n) => l ++ [TxOp.enableRbfWithSequence n]
      | none => l) =
    l ++ (match o with
      | some .default => [TxOp.enableRbf]
      | some (.value n) => [TxOp.enableRbfWithSequence n]
      | none => []) := by
  rcases o with _ | (_ | n) <;> simp

set_option maxHeartbeats 2000000 in
/-- The trace of finish, written as one concatenation of the per-field
segments in source order. -/
theorem TxBuilder.finishOps_eq (b : TxBuilder) :
    b.finishOps =
      b.recipients.map (fun r => TxOp.addRecipient r.1 r.2)
      ++ [TxOp.changePolicy b.changePolicy]
      ++ (if b.utxos.isEmpty then [] else [TxOp.addUtxos b.utxos])
      ++ (if b.unspendable = ∅ then [] else [TxOp.unspendableSet b.unspendable])
      ++ (if b.manuallySelectedOnly then [TxOp.manuallySelectedOnly] else [])
      ++ (b.feeRate.map TxOp.feeRate).toList
      ++ (b.feeAbsolute.map TxOp.feeAbsolute).toList
      ++ (if b.drainWallet then [TxOp.drainWallet] else [])
      ++ (b.drainTo.map TxOp.drainTo).toList
      ++ (match b.rbf with
          | some .default => [TxOp.enableRbf]
          | some (.value n) => [TxOp.enableRbfWithSequence n]
          | none => [])
      ++ (if b.data.isEmpty then [] else [TxOp.addData b.data]) := by
  obtain ⟨rec, ut, unsp, cp, mso, fr, fa, dw, dt, rbf, dat⟩ := b
  rcases mso <;> rcases dw <;> rcases fr with _ | fr <;> rcases fa with _ | fa <;>
    rcases dt with _ | dt <;> rcases rbf with _ | (_ | n) <;>
    rcases ut with _ | ⟨u0, ut⟩ <;> rcases dat with _ | ⟨d0, dat⟩ <;>
    by_cases hu : unsp = ∅ <;>
    simp [TxBuilder.finishOps, hu]

/-- Applying a concatenation of session calls is sequential application. -/
theorem TxParams.applyOps_append (s : TxParams) (l1 l2 : List TxOp) :
    TxParams.applyOps s (l1 ++ l2) = TxParams.applyOps (TxParams.applyOps s l1) l2 := by
  simp [TxParams.applyOps, List.foldl_append]

/-- A session call that does not write the fee policy slot leaves it
unchanged. -/
theorem TxParams.feePolicy_applyOp (s : TxParams) (op : TxOp)
    (h : op.touchesFee = false) : (s.applyOp op).feePolicy = s.feePolicy := by
  cases op <;> first
    | rfl
    | simp [TxOp.touchesFee] at h

/-- A list of session calls none of which writes the fee policy slot
leaves it unchanged. -/
theorem TxParams.feePolicy_applyOps (s : TxParams) (ops : List TxOp)
    (h : ∀ op ∈ ops, op.touchesFee = false) :
    (TxParams.applyOps s ops).feePolicy = s.feePolicy := by
  induction ops generalizing s with
  | nil => rfl
  | cons op rest ih =>
      have h1 : op.touchesFee = false := h op (List.mem_cons_self op rest)
      have h2 : ∀ o ∈ rest, o.touchesFee = false := fun o ho => h o (List.mem_cons_of_mem op ho)
      calc (TxParams.applyOps s (op :: rest)).feePolicy
          = (TxParams.applyOps (s.applyOp op) rest).feePolicy := rfl
        _ = (s.applyOp op).feePolicy := ih (s.applyOp op) h2
        _ = s.feePolicy := TxParams.feePolicy_applyOp s op h1

/-- Claim C1: deriving an extended (XPrv) secret key at any path succeeds;
the resulting origin keeps the existing origin fingerprint when there was
an origin and is the fingerprint of the key itself otherwise, the origin
path is the previous origin path extended by the derivation path, the
trailing derivation path is reset to empty, and the wildcard marker is
carried over; deriving a Single-variant key (secret or public) fails with
the not-derivable error. -/
theorem claim_C1_derive (d : DescriptorXKey XPrv) (p : DerivationPath)
    (s : SinglePriv) (sp : SinglePub) :
    (DescriptorSecretKey.xprv d).derive p =
      .ok (.xprv ⟨some (match d.origin with
          | some (fingerprint, originPath) => (fingerprint, originPath ++ p)
          | none => (d.xkey.fingerprint, p)),
        d.xkey.derivePriv p, ∅, d.wildcard⟩)
    ∧ (DescriptorSecretKey.single s).derive p =
        .error (.generic "Cannot derive from a single key")
    ∧ (DescriptorPublicKey.single sp).derive p =
        .error (.generic "Cannot derive from a single key") := by
  refine ⟨?_, rfl, rfl⟩
  cases h : d.origin <;> simp [DescriptorSecretKey.derive, h]

/-- Claim C2: on a derivable key, converting to public commutes with
derivation as long as the path has no hardened step, while a path with a
hardened step makes the public-side derivation fail with the
hardened-derivation error, which differs from the not-derivable error of
Single-variant keys. -/
theorem claim_C2_public_derive_commutes (d : DescriptorXKey XPrv) (p : DerivationPath) :
    ((DescriptorSecretKey.xprv d).asPublic.derive p =
      if List.any p ChildNumber.isHardened then
        .error (.bip32 .cannotDeriveFromHardenedKey)
      else Except.map DescriptorSecretKey.asPublic ((DescriptorSecretKey.xprv d).derive p))
    ∧ BdkError.bip32 .cannotDeriveFromHardenedKey ≠
        BdkError.generic "Cannot derive from a single key" := by
  constructor
  · by_cases h : List.any p ChildNumber.isHardened
    · simp [DescriptorSecretKey.asPublic, DescriptorPublicKey.derive, XPub.derivePub, h]
    · cases ho : d.origin <;>
        simp [DescriptorSecretKey.asPublic, DescriptorPublicKey.derive, XPub.derivePub, h,
          DescriptorSecretKey.derive, Except.map, XPrv.derivePriv, XPrv.toXPub,
          XPrv.fingerprint, ho]
  · intro h
    exact BdkError.noConfusion h

/-- Claim C4 evaluation: a Single-variant secret key is constructible by
parsing a WIF encoding, and calling secret_bytes on it aborts (the source
executes an unconditional abort on the Single branch) instead of
returning the private scalar; on an XPrv-variant key secret_bytes always
returns the scalar. -/
theorem claim_C4_secret_bytes_aborts_on_single :
    DescriptorSecretKey.fromString (.wif 42) = .ok (.single ⟨42⟩)
    ∧ DescriptorSecretKey.secretBytes (.single ⟨42⟩) = none
    ∧ ∀ d : DescriptorXKey XPrv, (DescriptorSecretKey.xprv d).secretBytes.isSome := by
  exact ⟨rfl, rfl, fun d => rfl⟩

/-- Claim C5 (amended): for every balance produced by the wallet, the
spendable field is the sum of the trusted-pending and confirmed coins,
and the total field is the sum of the four underlying balance categories
(immature, trusted pending, untrusted pending, confirmed). -/
theorem claim_C5_balance (b : BdkBalance) :
    (Balance.fromBdkBalance b).spendable = b.trustedPending + b.confirmed
    ∧ (Balance.fromBdkBalance b).total =
        b.immature + b.trustedPending + b.untrustedPending + b.confirmed := by
  constructor <;>
    simp [Balance.fromBdkBalance, BdkBalance.getSpendable, BdkBalance.getTotal] <;> ring

/-- Claim C5 counterexample: for the balance with one confirmed satoshi
and nothing else, the total field does not equal the sum of the five
non-total fields of the returned record (that sum counts the confirmed
and trusted-pending coins twice, once directly and once inside
spendable). -/
theorem claim_C5_counterexample :
    ¬ ((Balance.fromBdkBalance ⟨0, 0, 0, 1⟩).spendable =
          (Balance.fromBdkBalance ⟨0, 0, 0, 1⟩).trustedPending
            + (Balance.fromBdkBalance ⟨0, 0, 0, 1⟩).confirmed
        ∧ (Balance.fromBdkBalance ⟨0, 0, 0, 1⟩).total =
          (Balance.fromBdkBalance ⟨0, 0, 0, 1⟩).immature
            + (Balance.fromBdkBalance ⟨0, 0, 0, 1⟩).trustedPending
            + (Balance.fromBdkBalance ⟨0, 0, 0, 1⟩).untrustedPending
            + (Balance.fromBdkBalance ⟨0, 0, 0, 1⟩).confirmed
            + (Balance.fromBdkBalance ⟨0, 0, 0, 1⟩).spendable) := by
  decide

/-- Claim C6: extending an extended (non-Single) secret or public key
appends the path to the trailing (un-baked) derivation path and changes
nothing else: origin, raw key material and wildcard marker are those of
the input key. -/
theorem claim_C6_extend_frame (d : DescriptorXKey XPrv) (e : DescriptorXKey XPub)
    (p : DerivationPath) :
    (DescriptorSecretKey.xprv d).extend p =
      .ok (.xprv ⟨d.origin, d.xkey, d.derivationPath ++ p, d.wildcard⟩)
    ∧ (DescriptorPublicKey.xpub e).extend p =
      .ok (.xpub ⟨e.origin, e.xkey, e.derivationPath ++ p, e.wildcard⟩) := by
  exact ⟨rfl, rfl⟩

/-- Applying the recipient calls appends the recipients in order. -/
theorem TxParams.applyOps_addRecipients (s : TxParams) (rec : List (Script × Nat)) :
    TxParams.applyOps s (rec.map (fun r => TxOp.addRecipient r.1 r.2)) =
      { s with recipients := s.recipients ++ rec } := by
  induction rec generalizing s with
  | nil => simp [TxParams.applyOps]
  | cons r rest ih =>
      calc TxParams.applyOps s ((r :: rest).map (fun r => TxOp.addRecipient r.1 r.2))
          = TxParams.applyOps (s.applyOp (.addRecipient r.1 r.2))
              (rest.map (fun r => TxOp.addRecipient r.1 r.2)) := rfl
        _ = { s with recipients := s.recipients ++ r :: rest } := by
            rw [ih]
            simp [TxParams.applyOp]

set_option maxHeartbeats 2000000 in
/-- The session state finish produces from the accumulated builder state:
every field is carried over, and the shared fee policy slot holds the
absolute fee whenever one was set (the fee-absolute call comes after the
fee-rate call and overwrites the slot), the fee rate when only a rate was
set, and nothing otherwise. -/
theorem TxBuilder.applyOps_finishOps (b : TxBuilder) :
    TxParams.applyOps TxParams.initial b.finishOps =
      ⟨b.recipients, b.changePolicy, b.utxos, b.unspendable, b.manuallySelectedOnly,
        (match b.feeAbsolute, b.feeRate with
          | some a, _ => some (.feeAmount a)
          | none, some r => some (.feeRate r)
          | none, none => none),
        b.drainWallet, b.drainTo, b.rbf, b.data⟩ := by
  obtain ⟨rec, ut, unsp, cp, mso, fr, fa, dw, dt, rbf, dat⟩ := b
  rw [TxBuilder.finishOps_eq]
  simp only [TxParams.applyOps_append, TxParams.applyOps_addRecipients]
  rcases mso <;> rcases dw <;> rcases fr with _ | fr <;> rcases fa with _ | fa <;>
    rcases dt with _ | dt <;> rcases rbf with _ | (_ | n) <;>
    rcases ut with _ | ⟨u0, ut⟩ <;> rcases dat with _ | ⟨d0, dat⟩ <;>
    by_cases hu : unsp = ∅ <;>
    simp [TxParams.applyOps, TxParams.applyOp, TxParams.initial, hu]

/-- Claim C3: finish compiles the accumulated builder state into the
session calls in exactly the source order, namely recipients, change
policy, forced UTXOs, unspendable UTXOs, manual-only flag, fee rate then
fee absolute, drain-wallet flag, drain-to target, RBF signaling and
embedded data; in particular, because the fee rate is applied before the
absolute fee and both write the one fee policy slot of the session, the
absolute fee takes precedence when both are set. -/
theorem claim_C3_finish_order (b : TxBuilder) :
    b.finishOps =
      b.recipients.map (fun r => TxOp.addRecipient r.1 r.2)
      ++ [TxOp.changePolicy b.changePolicy]
      ++ (if b.utxos.isEmpty then [] else [TxOp.addUtxos b.utxos])
      ++ (if b.unspendable = ∅ then [] else [TxOp.unspendableSet b.unspendable])
      ++ (if b.manuallySelectedOnly then [TxOp.manuallySelectedOnly] else [])
      ++ (b.feeRate.map TxOp.feeRate).toList
      ++ (b.feeAbsolute.map TxOp.feeAbsolute).toList
      ++ (if b.drainWallet then [TxOp.drainWallet] else [])
      ++ (b.drainTo.map TxOp.drainTo).toList
      ++ (match b.rbf with
          | some .default => [TxOp.enableRbf]
          | some (.value n) => [TxOp.enableRbfWithSequence n]
          | none => [])
      ++ (if b.data.isEmpty then [] else [TxOp.addData b.data])
    ∧ (TxParams.applyOps TxParams.initial b.finishOps).feePolicy =
        (match b.feeAbsolute, b.feeRate with
          | some a, _ => some (.feeAmount a)
          | none, some r => some (.feeRate r)
          | none, none => none) := by
  refine ⟨TxBuilder.finishOps_eq b, ?_⟩
  rw [TxBuilder.applyOps_finishOps]

/-- Claim C7: every setter of the transaction builder is a pure
copy-on-write transformation: it returns a builder equal to the input
builder with only the targeted field changed (so the input value is
untouched and remains usable), and in particular setting the fee rate
leaves a previously set absolute fee in place and conversely. -/
theorem claim_C7_setters_pure (b : TxBuilder) (script : Script) (amount : Nat)
    (recipients : List ScriptAmount) (outpoint : OutPoint) (outpoints : List OutPoint)
    (satPerVb : F32) (feeAmount : Nat) (nsequence : Nat) (data : List Nat) :
    b.addRecipient script amount = { b with recipients := b.recipients ++ [(script, amount)] }
    ∧ b.setRecipients recipients =
        { b with recipients := recipients.map (fun sa => (sa.script, sa.amount)) }
    ∧ b.addUnspendable outpoint = { b with unspendable := insert outpoint b.unspendable }
    ∧ b.setUnspendable outpoints = { b with unspendable := outpoints.toFinset }
    ∧ b.addUtxo outpoint = { b with utxos := b.utxos ++ [outpoint] }
    ∧ b.addUtxos outpoints = { b with utxos := b.utxos ++ outpoints }
    ∧ b.setManuallySelectedOnly = { b with manuallySelectedOnly := true }
    ∧ b.doNotSpendChange = { b with changePolicy := .changeForbidden }
    ∧ b.onlySpendChange = { b with changePolicy := .onlyChange }
    ∧ b.setFeeRate satPerVb = { b with feeRate := some satPerVb }
    ∧ b.setFeeAbsolute feeAmount = { b with feeAbsolute := some feeAmount }
    ∧ b.setDrainWallet = { b with drainWallet := true }
    ∧ b.setDrainTo script = { b with drainTo := some script }
    ∧ b.enableRbf = { b with rbf := some .default }
    ∧ b.enableRbfWithSequence nsequence = { b with rbf := some (.value nsequence) }
    ∧ b.addData data = { b with data := data }
    ∧ (b.setFeeRate satPerVb).feeAbsolute = b.feeAbsolute
    ∧ (b.setFeeAbsolute feeAmount).feeRate = b.feeRate := by
  exact ⟨rfl, rfl, rfl, rfl, rfl, rfl, rfl, rfl, rfl, rfl, rfl, rfl, rfl, rfl, rfl, rfl,
    rfl, rfl⟩

/-- Claim C8: enable_rbf_with_sequence stores any 32-bit nSequence in the
builder without validation (the setter is total and only writes the rbf
field), and when the stored value exceeds the maximum RBF signaling value
0xFFFFFFFD the error surfaces only at finish, which fails with the
invalid-RBF-sequence error. -/
theorem claim_C8_rbf_sequence (b : TxBuilder) (nsequence : Nat) :
    b.enableRbfWithSequence nsequence = { b with rbf := some (.value nsequence) }
    ∧ (0xFFFFFFFD < nsequence →
        (b.enableRbfWithSequence nsequence).finishCheck = .error .invalidRbfSequence) := by
  refine ⟨rfl, fun h => ?_⟩
  unfold TxBuilder.finishCheck
  rw [TxBuilder.applyOps_finishOps]
  simp [TxParams.validateRbf, TxBuilder.enableRbfWithSequence, h]

/-- Claim C8 witness: a builder with the out-of-range nSequence
0xFFFFFFFE accepts the setter and then fails at finish with the
invalid-RBF-sequence error. -/
theorem claim_C8_rbf_sequence_witness :
    (TxBuilder.new.enableRbfWithSequence 4294967294).finishCheck =
      .error .invalidRbfSequence :=
  (claim_C8_rbf_sequence TxBuilder.new 4294967294).2 (by decide)

/-- Claim C9: parsing a descriptor expression that embeds an encoded
extended key fails with the invalid-network key error exactly when the
version-byte class of the embedded key differs from the declared network,
and constructing a wallet from such a descriptor re-runs the same check
against the network of the wallet; with matching networks both
constructions succeed. -/
theorem claim_C9_invalid_network (kb : KeyNetworkByte) (network : Network) :
    (Descriptor.new ⟨some kb⟩ network =
      if kb = network.keyByte then .ok ⟨some kb⟩ else .error .descriptorKeyInvalidNetwork)
    ∧ (Wallet.new ⟨some kb⟩ network =
      if kb = network.keyByte then .ok ⟨network, ⟨some kb⟩⟩
      else .error .descriptorKeyInvalidNetwork) := by
  by_cases h : kb = network.keyByte <;>
    simp [Descriptor.new, Wallet.new, intoWalletDescriptor, Descriptor.asStringPrivate, h]

/-- Claim C10: the six template constructors are partial at the public
interface: they return no typed error for any input, the secret-key
variants abort (return nothing) exactly on a Single-variant key, and the
public-key variants abort exactly when the fingerprint string is not a
valid 8-hex-digit fingerprint or the key is Single. -/
theorem claim_C10_template_partiality (sk : DescriptorSecretKey) (pk : DescriptorPublicKey)
    (fingerprint : String) (keychainKind : KeychainKind) (network : Network) :
    ((Descriptor.newBip44 sk keychainKind network).isSome = !sk.isSingle)
    ∧ ((Descriptor.newBip49 sk keychainKind network).isSome = !sk.isSingle)
    ∧ ((Descriptor.newBip84 sk keychainKind network).isSome = !sk.isSingle)
    ∧ ((Descriptor.newBip44Public pk fingerprint keychainKind network).isSome =
        ((fingerprintFromString fingerprint).isSome && !pk.isSingle))
    ∧ ((Descriptor.newBip49Public pk fingerprint keychainKind network).isSome =
        ((fingerprintFromString fingerprint).isSome && !pk.isSingle))
    ∧ ((Descriptor.newBip84Public pk fingerprint keychainKind network).isSome =
        ((fingerprintFromString fingerprint).isSome && !pk.isSingle)) := by
  rcases sk <;> rcases pk <;> cases hf : fingerprintFromString fingerprint <;>
    simp [Descriptor.newBip44, Descriptor.newBip49, Descriptor.newBip84,
      Descriptor.newBip44Public, Descriptor.newBip49Public, Descriptor.newBip84Public,
      DescriptorSecretKey.isSingle, DescriptorPublicKey.isSingle, hf]

end BdkFfi
